import Mathlib

/-!
Shallow embedding of the economic-event classifier of `Dailyschedule.py`
(`parse_time`, `parse_impact`, `analyze_day_events` and their constants),
together with theorems settling the specification claims about it.

Python strings are embedded as Lean `String`; a dictionary field that may be
absent is an `Option String` (`event.get(key, default)` becomes
`Option.getD`).  Python `datetime.time` values produced by `parse_time`
carry only hours and minutes, so they are embedded as a pair of `Nat`s
compared through minutes-since-midnight, which agrees with Python's
lexicographic comparison of `time` objects.
-/

namespace TradingPlan

/-- ASCII whitespace, the characters `str.strip()` and the `\s` class remove
on the inputs this program sees. -/
def isPySpace (c : Char) : Bool :=
  c = ' ' || c = '\t' || c = '\n' || c = '\r' || c = '\x0b' || c = '\x0c'

/-- Python `str.strip()`: drop whitespace at both ends. -/
def pyStrip (s : String) : String :=
  String.mk (((s.toList.dropWhile isPySpace).reverse.dropWhile isPySpace).reverse)

/-- ASCII lower-casing of one character (`str.lower()` on the inputs this
program sees). -/
def lowerChar (c : Char) : Char :=
  if 65 ≤ c.toNat ∧ c.toNat ≤ 90 then Char.ofNat (c.toNat + 32) else c

/-- ASCII upper-casing of one character (`str.upper()` on the inputs this
program sees). -/
def upperChar (c : Char) : Char :=
  if 97 ≤ c.toNat ∧ c.toNat ≤ 122 then Char.ofNat (c.toNat - 32) else c

/-- Python `str.lower()`. -/
def pyLower (s : String) : String := String.mk (s.toList.map lowerChar)

/-- Python `str.upper()`. -/
def pyUpper (s : String) : String := String.mk (s.toList.map upperChar)

/-- `needle` occurs at the start of `hay`. -/
def startsWithL : List Char → List Char → Bool
  | [], _ => true
  | _ :: _, [] => false
  | a :: as, b :: bs => a = b && startsWithL as bs

/-- `needle` occurs somewhere in `hay`; Python `needle in hay` on strings. -/
def containsSubL (needle : List Char) : List Char → Bool
  | [] => startsWithL needle []
  | c :: rest => startsWithL needle (c :: rest) || containsSubL needle rest

/-- Python substring test `needle in hay`. -/
def substrB (needle hay : String) : Bool :=
  containsSubL needle.toList hay.toList

/-- A time of day as produced by `datetime.strptime(...).time()`:
hours and minutes (the parsed formats never set seconds). -/
structure PTime where
  hour : Nat
  minute : Nat
deriving DecidableEq

/-- Minutes since midnight; Python compares `time` objects lexicographically
on (hour, minute), which coincides with this on minute-valued times. -/
def PTime.toMin (t : PTime) : Nat := t.hour * 60 + t.minute

/-- Numeric value of a decimal digit character. -/
def digitVal (c : Char) : Nat := c.toNat - 48

/-- The `%I` directive of `strptime`: regex `1[0-2]|0[1-9]|[1-9]`, returning
the hour (1..12) and the unconsumed input.  The next format character is
always `:`at the call sites, so the regex alternation needs no backtracking
and the greedy two-digit-first match below is exact. -/
def matchI : List Char → Option (Nat × List Char)
  | c1 :: c2 :: rest =>
      if c1 = '1' ∧ '0' ≤ c2 ∧ c2 ≤ '2' then some (10 + digitVal c2, rest)
      else if c1 = '0' ∧ '1' ≤ c2 ∧ c2 ≤ '9' then some (digitVal c2, rest)
      else if '1' ≤ c1 ∧ c1 ≤ '9' then some (digitVal c1, c2 :: rest)
      else none
  | [c1] => if '1' ≤ c1 ∧ c1 ≤ '9' then some (digitVal c1, []) else none
  | [] => none

/-- The `%H` directive: regex `2[0-3]|[0-1]\d|\d`, hour 0..23. -/
def matchH : List Char → Option (Nat × List Char)
  | c1 :: c2 :: rest =>
      if c1 = '2' ∧ '0' ≤ c2 ∧ c2 ≤ '3' then some (20 + digitVal c2, rest)
      else if ('0' ≤ c1 ∧ c1 ≤ '1') ∧ c2.isDigit then
        some (digitVal c1 * 10 + digitVal c2, rest)
      else if c1.isDigit then some (digitVal c1, c2 :: rest)
      else none
  | [c1] => if c1.isDigit then some (digitVal c1, []) else none
  | [] => none

/-- The `%M` directive: regex `[0-5]\d|\d`, minute 0..59.  What follows is
a letter of the meridiem or the end of the string, never a digit, so again
no backtracking is needed. -/
def matchM : List Char → Option (Nat × List Char)
  | c1 :: c2 :: rest =>
      if ('0' ≤ c1 ∧ c1 ≤ '5') ∧ c2.isDigit then
        some (digitVal c1 * 10 + digitVal c2, rest)
      else if c1.isDigit then some (digitVal c1, c2 :: rest)
      else none
  | [c1] => if c1.isDigit then some (digitVal c1, []) else none
  | [] => none

/-- The `%p` directive in the C locale: `AM|PM`, case-insensitive.
Returns `true` for PM. -/
def matchP : List Char → Option (Bool × List Char)
  | c1 :: c2 :: rest =>
      if (c1 = 'A' ∨ c1 = 'a') ∧ (c2 = 'M' ∨ c2 = 'm') then some (false, rest)
      else if (c1 = 'P' ∨ c1 = 'p') ∧ (c2 = 'M' ∨ c2 = 'm') then some (true, rest)
      else none
  | _ => none

/-- A literal space in a `strptime` format compiles to `\s+`: one or more
whitespace characters.  The next token is a meridiem letter, never
whitespace, so the greedy drop is exact. -/
def matchSpaces : List Char → Option (List Char)
  | c :: rest => if isPySpace c then some (rest.dropWhile isPySpace) else none
  | [] => none

/-- `strptime` 12-hour conversion: AM turns 12 into 0, PM adds 12 except to 12. -/
def mkTime12 (h m : Nat) (pm : Bool) : PTime :=
  if pm then ⟨if h = 12 then 12 else h + 12, m⟩
  else ⟨if h = 12 then 0 else h, m⟩

/-- `datetime.strptime(s, "%I:%M%p").time()` as a partial function:
the whole input must be consumed. -/
def strpIMp (l : List Char) : Option PTime :=
  match matchI l with
  | some (h, ':' :: l2) =>
      match matchM l2 with
      | some (m, l3) =>
          match matchP l3 with
          | some (pm, []) => some (mkTime12 h m pm)
          | _ => none
      | _ => none
  | _ => none

/-- `datetime.strptime(s, "%I:%M %p").time()`. -/
def strpIMSp (l : List Char) : Option PTime :=
  match matchI l with
  | some (h, ':' :: l2) =>
      match matchM l2 with
      | some (m, l3) =>
          match matchSpaces l3 with
          | some l4 =>
              match matchP l4 with
              | some (pm, []) => some (mkTime12 h m pm)
              | _ => none
          | _ => none
      | _ => none
  | _ => none

/-- `datetime.strptime(s, "%H:%M").time()`. -/
def strpHM (l : List Char) : Option PTime :=
  match matchH l with
  | some (h, ':' :: l2) =>
      match matchM l2 with
      | some (m, []) => some ⟨h, m⟩
      | _ => none
  | _ => none

/-- `parse_time` of `Dailyschedule.py`: `None`, the empty string and any
string lowercasing to `"empty"` give `None`; otherwise the stripped string
is tried against `%I:%M%p`, `%I:%M %p`, `%H:%M` in that order and the first
success wins; if none matches the result is `None` (all `ValueError`s are
swallowed). -/
def parse_time (time_str : Option String) : Option PTime :=
  match time_str with
  | none => none
  | some s =>
      if s = "" ∨ pyLower s = "empty" then none
      else
        let l := (pyStrip s).toList
        match strpIMp l with
        | some t => some t
        | none =>
            match strpIMSp l with
            | some t => some t
            | none => strpHM l

/-- `parse_impact` of `Dailyschedule.py`: `None` and the empty string give
`"Low"`; otherwise a case-insensitive substring check for `"high"` then
`"medium"`, defaulting to `"Low"`. -/
def parse_impact (impact_str : Option String) : String :=
  match impact_str with
  | none => "Low"
  | some s =>
      if s = "" then "Low"
      else
        let lower := pyLower s
        if substrB "high" lower then "High"
        else if substrB "medium" lower then "Medium"
        else "Low"

/-- `MORNING_CUTOFF = time(12, 0)`. -/
def MORNING_CUTOFF : PTime := ⟨12, 0⟩

/-- `AFTERNOON_NO_TRADE_START = time(13, 55)`. -/
def AFTERNOON_NO_TRADE_START : PTime := ⟨13, 55⟩

/-- `NO_TRADE_KEYWORDS` of `Dailyschedule.py`. -/
def NO_TRADE_KEYWORDS : List String :=
  ["FOMC Statement", "FOMC Press Conference", "Interest Rate Decision",
   "Monetary Policy Report"]

/-- `FORCED_HIGH_IMPACT_KEYWORDS` of `Dailyschedule.py`. -/
def FORCED_HIGH_IMPACT_KEYWORDS : List String :=
  ["Powell Speaks", "Fed Chair", "Non-Farm", "NFP", "CPI",
   "Consumer Price Index", "PPI", "Producer Price Index", "GDP"]

/-- A raw scraped event record: a dictionary whose string fields may be
absent. -/
structure RawEvent where
  date : Option String
  time : Option String
  currency : Option String
  impact : Option String
  event : Option String
deriving DecidableEq

/-- The `event_details` dictionary built per event inside
`analyze_day_events`. -/
structure NormalizedEvent where
  name : String
  currency : String
  impact : String
  time : String
  raw_time : Option PTime
deriving DecidableEq

/-- The 5-tuple returned by `analyze_day_events`. -/
structure AnalyzeResult where
  plan : String
  reason : String
  morning : List NormalizedEvent
  afternoon : List NormalizedEvent
  all_day : List NormalizedEvent
deriving DecidableEq

/-- `event_time = parse_time(event.get('time', ''))`. -/
def event_time (e : RawEvent) : Option PTime :=
  parse_time (some (e.time.getD ""))

/-- `event_name = event.get('event', '')`. -/
def event_name (e : RawEvent) : String := e.event.getD ""

/-- `currency = event.get('currency', '').strip().upper()`. -/
def currencyOf (e : RawEvent) : String := pyUpper (pyStrip (e.currency.getD ""))

/-- `parsed_impact = parse_impact(event.get('impact', ''))`. -/
def parsedImpact (e : RawEvent) : String := parse_impact (some (e.impact.getD ""))

/-- `is_forced_high = any(k.lower() in event_name.lower() for k in
FORCED_HIGH_IMPACT_KEYWORDS)`. -/
def is_forced_high (e : RawEvent) : Bool :=
  FORCED_HIGH_IMPACT_KEYWORDS.any (fun k => substrB (pyLower k) (pyLower (event_name e)))

/-- `is_high_impact = (parsed_impact == 'High') or is_forced_high`. -/
def is_high_impact (e : RawEvent) : Bool :=
  decide (parsedImpact e = "High") || is_forced_high e

/-- `display_impact = "High (Forced)" if is_forced_high and parsed_impact !=
'High' else ("High" if is_high_impact else parsed_impact)`. -/
def display_impact (e : RawEvent) : String :=
  if is_forced_high e = true ∧ parsedImpact e ≠ "High" then "High (Forced)"
  else if is_high_impact e then "High" else parsedImpact e

/-- Two-digit zero-padded decimal rendering used by `strftime`. -/
def two (n : Nat) : String := if n < 10 then "0" ++ toString n else toString n

/-- `t.strftime('%I:%M %p')`: zero-padded 12-hour clock with AM/PM. -/
def strftimeIMp (t : PTime) : String :=
  let h12 := if t.hour % 12 = 0 then 12 else t.hour % 12
  two h12 ++ ":" ++ two t.minute ++ " " ++ (if t.hour < 12 then "AM" else "PM")

/-- The `event_details` dictionary of one loop iteration. -/
def event_details (e : RawEvent) : NormalizedEvent :=
  { name := event_name e
    currency := currencyOf e
    impact := display_impact e
    time := match event_time e with
            | some t => strftimeIMp t
            | none => "All Day"
    raw_time := event_time e }

/-- `any(k.lower() in event_name.lower() for k in NO_TRADE_KEYWORDS)`. -/
def noTradeKwMatch (e : RawEvent) : Bool :=
  NO_TRADE_KEYWORDS.any (fun k => substrB (pyLower k) (pyLower (event_name e)))

/-- The complete guard of the early return: USD currency, a no-trade keyword
in the name, and a parsed time at or after `AFTERNOON_NO_TRADE_START`. -/
def isNoTradeTrigger (e : RawEvent) : Bool :=
  decide (currencyOf e = "USD") && noTradeKwMatch e &&
    (match event_time e with
     | some t => decide (AFTERNOON_NO_TRADE_START.toMin ≤ t.toMin)
     | none => false)

/-- The complete guard of `has_high_impact_usd_event = True`: the statement
sits inside the `currency == 'USD'` branch and requires `is_high_impact`
and a non-null parsed time. -/
def newsFlagEvent (e : RawEvent) : Bool :=
  decide (currencyOf e = "USD") && is_high_impact e && (event_time e).isSome

/-- The reason f-string of the early return. -/
def noTradeReason (e : RawEvent) : String :=
  "Critical afternoon USD event \x27" ++ event_name e ++ "\x27 at " ++
    ((event_time e).map strftimeIMp).getD "" ++ "."

/-- The three-way `if/elif/else` appending `event_details` to exactly one
bucket: null time to all-day, time before `MORNING_CUTOFF` to morning,
otherwise afternoon. -/
def bucketAppend (e : RawEvent) (m a ad : List NormalizedEvent) :
    List NormalizedEvent × List NormalizedEvent × List NormalizedEvent :=
  match event_time e with
  | none => (m, a, ad ++ [event_details e])
  | some t =>
      if t.toMin < MORNING_CUTOFF.toMin then (m ++ [event_details e], a, ad)
      else (m, a ++ [event_details e], ad)

/-- The `for event in events` loop of `analyze_day_events`, carrying the
`has_high_impact_usd_event` flag and the three buckets, with the early
`return "No Trade Day"` and the post-loop plan selection. -/
def analyzeLoop : List RawEvent → Bool → List NormalizedEvent →
    List NormalizedEvent → List NormalizedEvent → AnalyzeResult
  | [], hasHigh, m, a, ad =>
      if hasHigh then
        ⟨"News Day Plan", "High-impact USD news detected. The News Day Plan is active.",
         m, a, ad⟩
      else
        ⟨"Standard Day Plan",
         "No high-impact USD news found. Proceed with the Standard Day Plan.",
         m, a, ad⟩
  | e :: rest, hasHigh, m, a, ad =>
      let b := bucketAppend e m a ad
      if isNoTradeTrigger e then
        ⟨"No Trade Day", noTradeReason e, b.1, b.2.1, b.2.2⟩
      else
        analyzeLoop rest (hasHigh || newsFlagEvent e) b.1 b.2.1 b.2.2

/-- `analyze_day_events(target_date, events)`; the `target_date` parameter
is never read inside the function body. -/
def analyze_day_events {α : Type} (target_date : α) (events : List RawEvent) :
    AnalyzeResult :=
  analyzeLoop events false [] [] []

/-- The records the loop actually processes: the whole list, truncated just
after the first record firing the no-trade early return. -/
def processedEvents : List RawEvent → List RawEvent
  | [] => []
  | e :: rest => if isNoTradeTrigger e then [e] else e :: processedEvents rest

/-- A record classifies to the morning bucket. -/
def inMorningB (e : RawEvent) : Bool :=
  match event_time e with
  | some t => decide (t.toMin < MORNING_CUTOFF.toMin)
  | none => false

/-- A record classifies to the afternoon bucket. -/
def inAfternoonB (e : RawEvent) : Bool :=
  match event_time e with
  | some t => decide (MORNING_CUTOFF.toMin ≤ t.toMin)
  | none => false

/-- A record classifies to the all-day bucket. -/
def inAllDayB (e : RawEvent) : Bool := (event_time e).isNone

end TradingPlan

namespace TradingPlan

/-! ### General lemmas about the embedded functions -/

/-- `parse_impact` only ever produces one of its three labels. -/
theorem parse_impact_range (s : Option String) :
    parse_impact s = "High" ∨ parse_impact s = "Medium" ∨ parse_impact s = "Low" := by
  unfold parse_impact
  cases s with
  | none => simp
  | some v =>
      dsimp only
      split_ifs <;> simp

/-- The bucket update of one loop iteration, written through the three
classifier predicates. -/
theorem bucketAppend_eq (e : RawEvent) (m a ad : List NormalizedEvent) :
    bucketAppend e m a ad =
      (m ++ (if inMorningB e then [event_details e] else []),
       a ++ (if inAfternoonB e then [event_details e] else []),
       ad ++ (if inAllDayB e then [event_details e] else [])) := by
  unfold bucketAppend inMorningB inAfternoonB inAllDayB
  cases hte : event_time e with
  | none => simp
  | some t =>
      rcases Nat.lt_or_ge t.toMin MORNING_CUTOFF.toMin with h | h
      · simp [h, Nat.not_le.mpr h]
      · simp [h, Nat.not_lt.mpr h]

/-- The buckets returned by the loop: the starting accumulators followed by
the normalized processed records, filtered by their classifier. -/
theorem analyzeLoop_buckets (es : List RawEvent) :
    ∀ (hh : Bool) (m a ad : List NormalizedEvent),
    (analyzeLoop es hh m a ad).morning =
      m ++ ((processedEvents es).filter inMorningB).map event_details ∧
    (analyzeLoop es hh m a ad).afternoon =
      a ++ ((processedEvents es).filter inAfternoonB).map event_details ∧
    (analyzeLoop es hh m a ad).all_day =
      ad ++ ((processedEvents es).filter inAllDayB).map event_details := by
  induction es with
  | nil =>
      intro hh m a ad
      cases hh <;> simp [analyzeLoop, processedEvents]
  | cons e rest ih =>
      intro hh m a ad
      by_cases htr : isNoTradeTrigger e = true
      · cases hm : inMorningB e <;> cases ha : inAfternoonB e <;>
          cases had : inAllDayB e <;>
          simp [analyzeLoop, processedEvents, bucketAppend_eq, htr, hm, ha, had,
            List.filter_cons]
      · obtain ⟨ih1, ih2, ih3⟩ :=
          ih (hh || newsFlagEvent e)
            (m ++ (if inMorningB e then [event_details e] else []))
            (a ++ (if inAfternoonB e then [event_details e] else []))
            (ad ++ (if inAllDayB e then [event_details e] else []))
        cases hm : inMorningB e <;> cases ha : inAfternoonB e <;>
          cases had : inAllDayB e <;>
          simp_all [analyzeLoop, processedEvents, bucketAppend_eq, htr,
            List.filter_cons]

/-- The plan returned by the loop, as one expression: any no-trade trigger
anywhere forces `"No Trade Day"`; otherwise the flag (seeded with `hh`)
decides between the news and standard plans. -/
theorem analyzeLoop_plan (es : List RawEvent) :
    ∀ (hh : Bool) (m a ad : List NormalizedEvent),
    (analyzeLoop es hh m a ad).plan =
      if es.any isNoTradeTrigger then "No Trade Day"
      else if hh || es.any newsFlagEvent then "News Day Plan"
      else "Standard Day Plan" := by
  induction es with
  | nil =>
      intro hh m a ad
      cases hh <;> simp [analyzeLoop]
  | cons e rest ih =>
      intro hh m a ad
      by_cases htr : isNoTradeTrigger e = true
      · simp [analyzeLoop, htr]
      · simp only [analyzeLoop]
        rw [if_neg (by simp [htr])]
        rw [ih]
        simp [htr, Bool.or_assoc]

/-- When some trigger fires, the returned reason is the no-trade reason of
a triggering record of the list. -/
theorem analyzeLoop_reason (es : List RawEvent) :
    ∀ (hh : Bool) (m a ad : List NormalizedEvent),
    es.any isNoTradeTrigger = true →
    ∃ e, e ∈ es ∧ isNoTradeTrigger e = true ∧
      (analyzeLoop es hh m a ad).reason = noTradeReason e := by
  induction es with
  | nil => intro hh m a ad h; simp at h
  | cons e rest ih =>
      intro hh m a ad h
      by_cases htr : isNoTradeTrigger e = true
      · exact ⟨e, List.mem_cons_self e rest, htr, by simp [analyzeLoop, htr]⟩
      · have h' : rest.any isNoTradeTrigger = true := by
          simpa [htr] using h
        obtain ⟨e', he', ht', hr⟩ :=
          ih (hh || newsFlagEvent e) (bucketAppend e m a ad).1
            (bucketAppend e m a ad).2.1 (bucketAppend e m a ad).2.2 h'
        refine ⟨e', List.mem_cons_of_mem e he', ht', ?_⟩
        simpa [analyzeLoop, htr] using hr

end TradingPlan

namespace TradingPlan

/-- An `event_details` value determines its record's bucket classification,
since the classifiers only read the parsed time stored in `raw_time`. -/
theorem classifier_details {e e' : RawEvent}
    (h : event_details e' = event_details e) :
    inMorningB e' = inMorningB e ∧ inAfternoonB e' = inAfternoonB e ∧
      inAllDayB e' = inAllDayB e := by
  have ht : event_time e' = event_time e := congrArg NormalizedEvent.raw_time h
  refine ⟨?_, ?_, ?_⟩ <;> simp [inMorningB, inAfternoonB, inAllDayB, ht]

/-- Morning classification unfolded to the time condition. -/
theorem inMorningB_iff (e : RawEvent) :
    inMorningB e = true ↔
      ∃ t, event_time e = some t ∧ t.toMin < MORNING_CUTOFF.toMin := by
  unfold inMorningB
  cases h : event_time e <;> simp [h]

/-- Afternoon classification unfolded to the time condition. -/
theorem inAfternoonB_iff (e : RawEvent) :
    inAfternoonB e = true ↔
      ∃ t, event_time e = some t ∧ MORNING_CUTOFF.toMin ≤ t.toMin := by
  unfold inAfternoonB
  cases h : event_time e <;> simp [h]

/-- Each record satisfies exactly one of the three bucket classifiers. -/
theorem classifier_trichotomy (e : RawEvent) :
    (inMorningB e).toNat + (inAfternoonB e).toNat + (inAllDayB e).toNat = 1 := by
  unfold inMorningB inAfternoonB inAllDayB
  cases h : event_time e with
  | none => simp
  | some t =>
      rcases Nat.lt_or_ge t.toMin MORNING_CUTOFF.toMin with hlt | hge
      · simp [hlt, Nat.not_le.mpr hlt]
      · simp [hge, Nat.not_lt.mpr hge]

/-- The three classifier filters of a list of records split its length. -/
theorem filter_three_length (l : List RawEvent) :
    (l.filter inMorningB).length + (l.filter inAfternoonB).length +
      (l.filter inAllDayB).length = l.length := by
  induction l with
  | nil => simp
  | cons e t ih =>
      have htri := classifier_trichotomy e
      cases hm : inMorningB e <;> cases ha : inAfternoonB e <;>
        cases had : inAllDayB e <;>
        simp_all [List.filter_cons] <;> omega

/-- Without a no-trade trigger, the loop processes the whole input. -/
theorem processedEvents_eq_of_no_trigger (es : List RawEvent)
    (h : ∀ e ∈ es, isNoTradeTrigger e = false) : processedEvents es = es := by
  induction es with
  | nil => rfl
  | cons e t ih =>
      simp [processedEvents, h e (List.mem_cons_self e t),
        ih fun x hx => h x (List.mem_cons_of_mem e hx)]

/-- The processed records always form an initial segment of the input. -/
theorem processedEvents_initial (es : List RawEvent) :
    ∃ rest, processedEvents es ++ rest = es := by
  induction es with
  | nil => exact ⟨[], rfl⟩
  | cons e t ih =>
      by_cases htr : isNoTradeTrigger e = true
      · exact ⟨t, by simp [processedEvents, htr]⟩
      · obtain ⟨r, hr⟩ := ih
        exact ⟨r, by simp [processedEvents, htr, hr]⟩

/-! ### Claim theorems -/

/-- C9: the `target_date` argument of `analyze_day_events` is never read:
for any two dates (of any types) and any event list the results coincide. -/
theorem target_date_has_no_influence {α β : Type} (d1 : α) (d2 : β)
    (events : List RawEvent) :
    analyze_day_events d1 events = analyze_day_events d2 events := rfl

/-- C10: `parse_time` returns `None` for every input whose string form
lowercases to the word `"empty"`, for example `"Empty"`. -/
theorem parse_time_empty_sentinel (s : String) (h : pyLower s = "empty") :
    parse_time (some s) = none := by
  simp [parse_time, h]

theorem parse_time_empty_sentinel_witness :
    pyLower "Empty" = "empty" ∧ parse_time (some "Empty") = none :=
  ⟨by decide, parse_time_empty_sentinel "Empty" (by decide)⟩

/-- C7: `parse_impact` is a case-insensitive substring match in priority
order: a string containing `"high"` gives `"High"`, else one containing
`"medium"` gives `"Medium"`, and every other input — including strings
containing `"low"`, the empty string and `None` — gives `"Low"`;
in particular `parse_impact("High Impact Expected") = "High"`. -/
theorem parse_impact_substring_priority (s : String) :
    (substrB "high" (pyLower s) = true → parse_impact (some s) = "High") ∧
    (substrB "high" (pyLower s) = false → substrB "medium" (pyLower s) = true →
      parse_impact (some s) = "Medium") ∧
    (substrB "high" (pyLower s) = false → substrB "medium" (pyLower s) = false →
      parse_impact (some s) = "Low") ∧
    parse_impact none = "Low" ∧ parse_impact (some "") = "Low" ∧
    parse_impact (some "High Impact Expected") = "High" := by
  refine ⟨?_, ?_, ?_, rfl, rfl, by decide⟩
  · intro h1
    by_cases hs : s = ""
    · subst hs; exact absurd h1 (by decide)
    · simp [parse_impact, hs, h1]
  · intro h1 h2
    by_cases hs : s = ""
    · subst hs; exact absurd h2 (by decide)
    · simp [parse_impact, hs, h1, h2]
  · intro h1 h2
    by_cases hs : s = ""
    · subst hs; rfl
    · simp [parse_impact, hs, h1, h2]

theorem parse_impact_substring_priority_witness :
    (substrB "high" (pyLower "High Impact Expected") = true →
      parse_impact (some "High Impact Expected") = "High") ∧
    (substrB "high" (pyLower "High Impact Expected") = false →
      substrB "medium" (pyLower "High Impact Expected") = true →
      parse_impact (some "High Impact Expected") = "Medium") ∧
    (substrB "high" (pyLower "High Impact Expected") = false →
      substrB "medium" (pyLower "High Impact Expected") = false →
      parse_impact (some "High Impact Expected") = "Low") ∧
    parse_impact none = "Low" ∧ parse_impact (some "") = "Low" ∧
    parse_impact (some "High Impact Expected") = "High" :=
  parse_impact_substring_priority "High Impact Expected"

/-- C6: `parse_time` tries `%I:%M%p`, then `%I:%M %p`, then `%H:%M` on the
stripped input and returns the first success, `None` when no format
matches; `"7:01pm"`, `"7:01 pm"` and `"19:01"` all give 19:01, while
`"Tentative"`, `""` and `None` give `None`. -/
theorem parse_time_format_order_and_examples (s : String) (t : PTime)
    (hne : ¬(s = "" ∨ pyLower s = "empty")) :
    (strpIMp (pyStrip s).toList = some t → parse_time (some s) = some t) ∧
    (strpIMp (pyStrip s).toList = none → strpIMSp (pyStrip s).toList = some t →
      parse_time (some s) = some t) ∧
    (strpIMp (pyStrip s).toList = none → strpIMSp (pyStrip s).toList = none →
      parse_time (some s) = strpHM (pyStrip s).toList) ∧
    parse_time (some "7:01pm") = some ⟨19, 1⟩ ∧
    parse_time (some "7:01 pm") = some ⟨19, 1⟩ ∧
    parse_time (some "19:01") = some ⟨19, 1⟩ ∧
    parse_time (some "Tentative") = none ∧
    parse_time (some "") = none ∧
    parse_time none = none := by
  refine ⟨?_, ?_, ?_, by decide, by decide, by decide, by decide, rfl, rfl⟩
  · intro h1
    have h1d : strpIMp (pyStrip s).data = some t := h1
    simp [parse_time, hne, h1d]
  · intro h1 h2
    have h1d : strpIMp (pyStrip s).data = none := h1
    have h2d : strpIMSp (pyStrip s).data = some t := h2
    simp [parse_time, hne, h1d, h2d]
  · intro h1 h2
    have h1d : strpIMp (pyStrip s).data = none := h1
    have h2d : strpIMSp (pyStrip s).data = none := h2
    simp [parse_time, hne, h1d, h2d]

theorem parse_time_format_order_witness :
    ¬(("7:01pm" : String) = "" ∨ pyLower "7:01pm" = "empty") ∧
    ((strpIMp (pyStrip "7:01pm").toList = some ⟨19, 1⟩ →
        parse_time (some "7:01pm") = some ⟨19, 1⟩) ∧
      (strpIMp (pyStrip "7:01pm").toList = none →
        strpIMSp (pyStrip "7:01pm").toList = some ⟨19, 1⟩ →
        parse_time (some "7:01pm") = some ⟨19, 1⟩) ∧
      (strpIMp (pyStrip "7:01pm").toList = none →
        strpIMSp (pyStrip "7:01pm").toList = none →
        parse_time (some "7:01pm") = strpHM (pyStrip "7:01pm").toList) ∧
      parse_time (some "7:01pm") = some ⟨19, 1⟩ ∧
      parse_time (some "7:01 pm") = some ⟨19, 1⟩ ∧
      parse_time (some "19:01") = some ⟨19, 1⟩ ∧
      parse_time (some "Tentative") = none ∧
      parse_time (some "") = none ∧
      parse_time none = none) :=
  ⟨by decide, parse_time_format_order_and_examples "7:01pm" ⟨19, 1⟩ (by decide)⟩

end TradingPlan

namespace TradingPlan

/-- C1: if some record has trimmed-and-upper-cased currency `"USD"`, an
event name containing a no-trade keyword (case-insensitive substring), and
a parsed time at or after 13:55, the plan is exactly `"No Trade Day"` and
the reason is the no-trade reason string naming a triggering event. -/
theorem no_trade_day_on_critical_afternoon_event {α : Type} (d : α)
    (es : List RawEvent) (e0 : RawEvent) (h0 : e0 ∈ es)
    (hcur : currencyOf e0 = "USD") (hkw : noTradeKwMatch e0 = true)
    (ht : ∃ t, event_time e0 = some t ∧
      AFTERNOON_NO_TRADE_START.toMin ≤ t.toMin) :
    (analyze_day_events d es).plan = "No Trade Day" ∧
    ∃ e, e ∈ es ∧ isNoTradeTrigger e = true ∧
      (analyze_day_events d es).reason = noTradeReason e := by
  have htr : isNoTradeTrigger e0 = true := by
    obtain ⟨t, ht1, ht2⟩ := ht
    simp [isNoTradeTrigger, hcur, hkw, ht1, ht2]
  have hany : es.any isNoTradeTrigger = true :=
    List.any_eq_true.mpr ⟨e0, h0, htr⟩
  constructor
  · show (analyzeLoop es false [] [] []).plan = "No Trade Day"
    rw [analyzeLoop_plan]
    simp [hany]
  · exact analyzeLoop_reason es false [] [] [] hany

theorem no_trade_day_witness :
    (analyze_day_events (0 : Nat)
        [⟨none, some "2:00pm", some "USD", some "High",
          some "FOMC Statement"⟩]).plan = "No Trade Day" ∧
    ∃ e, e ∈ [(⟨none, some "2:00pm", some "USD", some "High",
          some "FOMC Statement"⟩ : RawEvent)] ∧ isNoTradeTrigger e = true ∧
      (analyze_day_events (0 : Nat)
        [⟨none, some "2:00pm", some "USD", some "High",
          some "FOMC Statement"⟩]).reason = noTradeReason e :=
  no_trade_day_on_critical_afternoon_event 0 _ _
    (List.mem_singleton.mpr rfl) (by decide) (by decide)
    ⟨⟨14, 0⟩, by decide, by decide⟩

/-- C2: when no record fires the no-trade condition, the plan is
`"News Day Plan"` exactly when some record has USD currency, a non-null
parsed time and is high-impact (parsed impact `"High"` or a forced-high
keyword in the name), and `"Standard Day Plan"` exactly otherwise. -/
theorem news_day_plan_iff_high_impact_usd {α : Type} (d : α)
    (es : List RawEvent) (hno : ∀ e ∈ es, isNoTradeTrigger e = false) :
    ((analyze_day_events d es).plan = "News Day Plan" ↔
      ∃ e, e ∈ es ∧ currencyOf e = "USD" ∧ (event_time e).isSome = true ∧
        is_high_impact e = true) ∧
    ((analyze_day_events d es).plan = "Standard Day Plan" ↔
      ¬∃ e, e ∈ es ∧ currencyOf e = "USD" ∧ (event_time e).isSome = true ∧
        is_high_impact e = true) := by
  have hanyt : es.any isNoTradeTrigger = false := by
    rw [List.any_eq_false]
    intro e he
    simp [hno e he]
  have hplan : (analyze_day_events d es).plan =
      if es.any newsFlagEvent then "News Day Plan" else "Standard Day Plan" := by
    show (analyzeLoop es false [] [] []).plan = _
    rw [analyzeLoop_plan]
    simp [hanyt]
  have hflag : es.any newsFlagEvent = true ↔
      ∃ e, e ∈ es ∧ currencyOf e = "USD" ∧ (event_time e).isSome = true ∧
        is_high_impact e = true := by
    rw [List.any_eq_true]
    constructor
    · rintro ⟨e, he, hf⟩
      unfold newsFlagEvent at hf
      simp only [Bool.and_eq_true, decide_eq_true_eq] at hf
      exact ⟨e, he, hf.1.1, hf.2, hf.1.2⟩
    · rintro ⟨e, he, h1, h2, h3⟩
      exact ⟨e, he, by simp [newsFlagEvent, h1, h2, h3]⟩
  by_cases hany : es.any newsFlagEvent = true
  · have hEx := hflag.mp hany
    rw [hplan, if_pos hany]
    exact ⟨iff_of_true rfl hEx,
      iff_of_false (by decide) (not_not_intro hEx)⟩
  · have hnEx : ¬∃ e, e ∈ es ∧ currencyOf e = "USD" ∧
        (event_time e).isSome = true ∧ is_high_impact e = true :=
      fun h => hany (hflag.mpr h)
    rw [hplan, if_neg hany]
    exact ⟨iff_of_false (by decide) hnEx, iff_of_true rfl hnEx⟩

theorem news_day_plan_witness :
    (∀ e ∈ [(⟨some "01/07/2025", some "8:30am", some "USD", some "High",
        some "Non-Farm Payrolls"⟩ : RawEvent)], isNoTradeTrigger e = false) ∧
    ((analyze_day_events (0 : Nat)
        [⟨some "01/07/2025", some "8:30am", some "USD", some "High",
          some "Non-Farm Payrolls"⟩]).plan = "News Day Plan" ↔
      ∃ e, e ∈ [(⟨some "01/07/2025", some "8:30am", some "USD", some "High",
          some "Non-Farm Payrolls"⟩ : RawEvent)] ∧ currencyOf e = "USD" ∧
        (event_time e).isSome = true ∧ is_high_impact e = true) ∧
    ((analyze_day_events (0 : Nat)
        [⟨some "01/07/2025", some "8:30am", some "USD", some "High",
          some "Non-Farm Payrolls"⟩]).plan = "Standard Day Plan" ↔
      ¬∃ e, e ∈ [(⟨some "01/07/2025", some "8:30am", some "USD", some "High",
          some "Non-Farm Payrolls"⟩ : RawEvent)] ∧ currencyOf e = "USD" ∧
        (event_time e).isSome = true ∧ is_high_impact e = true) :=
  ⟨by decide,
    (news_day_plan_iff_high_impact_usd 0 _ (by decide)).1,
    (news_day_plan_iff_high_impact_usd 0 _ (by decide)).2⟩

/-- C3: each processed record contributes exactly one normalized event to
exactly one bucket (the buckets are the classifier filters of the
processed records, whose lengths add up to the count of processed
records, one bucket per record); the processed records are the whole
input if no no-trade trigger fires, and otherwise an initial segment of
the input ending at the first triggering record. -/
theorem buckets_partition_processed {α : Type} (d : α) (es : List RawEvent) :
    (analyze_day_events d es).morning =
      ((processedEvents es).filter inMorningB).map event_details ∧
    (analyze_day_events d es).afternoon =
      ((processedEvents es).filter inAfternoonB).map event_details ∧
    (analyze_day_events d es).all_day =
      ((processedEvents es).filter inAllDayB).map event_details ∧
    (analyze_day_events d es).morning.length +
      (analyze_day_events d es).afternoon.length +
      (analyze_day_events d es).all_day.length =
      (processedEvents es).length ∧
    (∀ e : RawEvent, (inMorningB e).toNat + (inAfternoonB e).toNat +
      (inAllDayB e).toNat = 1) ∧
    ((∀ e ∈ es, isNoTradeTrigger e = false) → processedEvents es = es) ∧
    (∃ rest, processedEvents es ++ rest = es) := by
  obtain ⟨h1, h2, h3⟩ := analyzeLoop_buckets es false [] [] []
  refine ⟨by simpa using h1, by simpa using h2, by simpa using h3, ?_,
    classifier_trichotomy, processedEvents_eq_of_no_trigger es,
    processedEvents_initial es⟩
  have hm : (analyze_day_events d es).morning =
      ((processedEvents es).filter inMorningB).map event_details := by
    simpa using h1
  have ha : (analyze_day_events d es).afternoon =
      ((processedEvents es).filter inAfternoonB).map event_details := by
    simpa using h2
  have had : (analyze_day_events d es).all_day =
      ((processedEvents es).filter inAllDayB).map event_details := by
    simpa using h3
  rw [hm, ha, had]
  simp only [List.length_map]
  exact filter_three_length (processedEvents es)

theorem buckets_partition_witness :
    (analyze_day_events (0 : Nat)
        [⟨none, some "2:00pm", some "USD", some "High",
          some "FOMC Statement"⟩]).morning =
      ((processedEvents [⟨none, some "2:00pm", some "USD", some "High",
          some "FOMC Statement"⟩]).filter inMorningB).map event_details ∧
    (analyze_day_events (0 : Nat)
        [⟨none, some "2:00pm", some "USD", some "High",
          some "FOMC Statement"⟩]).afternoon =
      ((processedEvents [⟨none, some "2:00pm", some "USD", some "High",
          some "FOMC Statement"⟩]).filter inAfternoonB).map event_details ∧
    (analyze_day_events (0 : Nat)
        [⟨none, some "2:00pm", some "USD", some "High",
          some "FOMC Statement"⟩]).all_day =
      ((processedEvents [⟨none, some "2:00pm", some "USD", some "High",
          some "FOMC Statement"⟩]).filter inAllDayB).map event_details ∧
    (analyze_day_events (0 : Nat)
        [⟨none, some "2:00pm", some "USD", some "High",
          some "FOMC Statement"⟩]).morning.length +
      (analyze_day_events (0 : Nat)
        [⟨none, some "2:00pm", some "USD", some "High",
          some "FOMC Statement"⟩]).afternoon.length +
      (analyze_day_events (0 : Nat)
        [⟨none, some "2:00pm", some "USD", some "High",
          some "FOMC Statement"⟩]).all_day.length =
      (processedEvents [⟨none, some "2:00pm", some "USD", some "High",
          some "FOMC Statement"⟩]).length ∧
    (∀ e : RawEvent, (inMorningB e).toNat + (inAfternoonB e).toNat +
      (inAllDayB e).toNat = 1) ∧
    ((∀ e ∈ [(⟨none, some "2:00pm", some "USD", some "High",
        some "FOMC Statement"⟩ : RawEvent)], isNoTradeTrigger e = false) →
      processedEvents [⟨none, some "2:00pm", some "USD", some "High",
        some "FOMC Statement"⟩] =
        [⟨none, some "2:00pm", some "USD", some "High",
          some "FOMC Statement"⟩]) ∧
    (∃ rest, processedEvents [⟨none, some "2:00pm", some "USD", some "High",
        some "FOMC Statement"⟩] ++ rest =
        [⟨none, some "2:00pm", some "USD", some "High",
          some "FOMC Statement"⟩]) :=
  buckets_partition_processed 0 _

end TradingPlan

namespace TradingPlan

/-- C4: the classifier is a total function over records with absent, empty
or malformed string fields: it always yields the five components, the plan
is one of the three labels, and malformed fields degrade to the documented
defaults: a missing event or currency becomes the empty string, a processed
record whose time is unparsable lands in the all-day bucket with a null
`raw_time` and the `"All Day"` label, and an impact that is absent, empty
or free of the `"high"`/`"medium"` substrings parses to `"Low"`. -/
theorem analyzer_total_with_defaults {α : Type} (d : α) (es : List RawEvent)
    (e : RawEvent) (s : String) :
    (∃ p r m a ad, analyze_day_events d es = AnalyzeResult.mk p r m a ad) ∧
    ((analyze_day_events d es).plan = "No Trade Day" ∨
      (analyze_day_events d es).plan = "News Day Plan" ∨
      (analyze_day_events d es).plan = "Standard Day Plan") ∧
    (e.event = none → event_name e = "") ∧
    (e.currency = none → currencyOf e = "") ∧
    (e ∈ processedEvents es → event_time e = none →
      event_details e ∈ (analyze_day_events d es).all_day ∧
      (event_details e).time = "All Day" ∧ (event_details e).raw_time = none) ∧
    parse_impact none = "Low" ∧ parse_impact (some "") = "Low" ∧
    (substrB "high" (pyLower s) = false → substrB "medium" (pyLower s) = false →
      parse_impact (some s) = "Low") := by
  refine ⟨⟨_, _, _, _, _, rfl⟩, ?_, ?_, ?_, ?_, rfl, rfl, ?_⟩
  · have hplan := analyzeLoop_plan es false [] [] []
    show (analyzeLoop es false [] [] []).plan = _ ∨
      (analyzeLoop es false [] [] []).plan = _ ∨
      (analyzeLoop es false [] [] []).plan = _
    rw [hplan]
    split_ifs <;> simp
  · intro h
    simp [event_name, h]
  · intro h
    simp [currencyOf, h]
    decide
  · intro hmem hnone
    obtain ⟨_, _, h3⟩ := analyzeLoop_buckets es false [] [] []
    have had : (analyze_day_events d es).all_day =
        ((processedEvents es).filter inAllDayB).map event_details := by
      simpa using h3
    refine ⟨?_, by simp [event_details, hnone], by simp [event_details, hnone]⟩
    rw [had]
    exact List.mem_map.mpr
      ⟨e, List.mem_filter.mpr ⟨hmem, by simp [inAllDayB, hnone]⟩, rfl⟩
  · intro h1 h2
    by_cases hs : s = ""
    · subst hs; rfl
    · simp [parse_impact, hs, h1, h2]

theorem analyzer_total_witness :
    (∃ p r m a ad, analyze_day_events (0 : Nat)
        [(⟨none, some "Tentative", none, some "garbage", none⟩ : RawEvent)] =
      AnalyzeResult.mk p r m a ad) ∧
    ((analyze_day_events (0 : Nat)
        [(⟨none, some "Tentative", none, some "garbage", none⟩ :
          RawEvent)]).plan = "No Trade Day" ∨
      (analyze_day_events (0 : Nat)
        [(⟨none, some "Tentative", none, some "garbage", none⟩ :
          RawEvent)]).plan = "News Day Plan" ∨
      (analyze_day_events (0 : Nat)
        [(⟨none, some "Tentative", none, some "garbage", none⟩ :
          RawEvent)]).plan = "Standard Day Plan") ∧
    ((⟨none, some "Tentative", none, some "garbage", none⟩ : RawEvent).event =
        none →
      event_name ⟨none, some "Tentative", none, some "garbage", none⟩ = "") ∧
    ((⟨none, some "Tentative", none, some "garbage", none⟩ :
        RawEvent).currency = none →
      currencyOf ⟨none, some "Tentative", none, some "garbage", none⟩ = "") ∧
    ((⟨none, some "Tentative", none, some "garbage", none⟩ : RawEvent) ∈
        processedEvents
          [(⟨none, some "Tentative", none, some "garbage", none⟩ :
            RawEvent)] →
      event_time ⟨none, some "Tentative", none, some "garbage", none⟩ = none →
      event_details ⟨none, some "Tentative", none, some "garbage", none⟩ ∈
        (analyze_day_events (0 : Nat)
          [(⟨none, some "Tentative", none, some "garbage", none⟩ :
            RawEvent)]).all_day ∧
      (event_details
        ⟨none, some "Tentative", none, some "garbage", none⟩).time =
          "All Day" ∧
      (event_details
        ⟨none, some "Tentative", none, some "garbage", none⟩).raw_time =
          none) ∧
    parse_impact none = "Low" ∧ parse_impact (some "") = "Low" ∧
    (substrB "high" (pyLower "garbage") = false →
      substrB "medium" (pyLower "garbage") = false →
      parse_impact (some "garbage") = "Low") :=
  analyzer_total_with_defaults 0
    [(⟨none, some "Tentative", none, some "garbage", none⟩ : RawEvent)]
    ⟨none, some "Tentative", none, some "garbage", none⟩ "garbage"

/-- C5: a processed record's normalized event sits in the all-day bucket
exactly when its parsed time is null, in the morning bucket exactly when
its parsed time is strictly before 12:00, and in the afternoon bucket
exactly when its parsed time is at or after 12:00. -/
theorem bucket_placement_by_time {α : Type} (d : α) (es : List RawEvent)
    (e : RawEvent) (he : e ∈ processedEvents es) :
    (event_details e ∈ (analyze_day_events d es).all_day ↔
      event_time e = none) ∧
    (event_details e ∈ (analyze_day_events d es).morning ↔
      ∃ t, event_time e = some t ∧ t.toMin < MORNING_CUTOFF.toMin) ∧
    (event_details e ∈ (analyze_day_events d es).afternoon ↔
      ∃ t, event_time e = some t ∧ MORNING_CUTOFF.toMin ≤ t.toMin) := by
  obtain ⟨h1, h2, h3⟩ := analyzeLoop_buckets es false [] [] []
  have hm : (analyze_day_events d es).morning =
      ((processedEvents es).filter inMorningB).map event_details := by
    simpa using h1
  have ha : (analyze_day_events d es).afternoon =
      ((processedEvents es).filter inAfternoonB).map event_details := by
    simpa using h2
  have had : (analyze_day_events d es).all_day =
      ((processedEvents es).filter inAllDayB).map event_details := by
    simpa using h3
  refine ⟨?_, ?_, ?_⟩
  · rw [had]
    constructor
    · intro hmem
      obtain ⟨e', he'mem, hdet⟩ := List.mem_map.mp hmem
      obtain ⟨_, hp⟩ := List.mem_filter.mp he'mem
      have hcl := (classifier_details hdet).2.2
      rw [hcl] at hp
      simpa [inAllDayB, Option.isNone_iff_eq_none] using hp
    · intro hnone
      refine List.mem_map.mpr ⟨e, List.mem_filter.mpr ⟨he, ?_⟩, rfl⟩
      simp [inAllDayB, hnone]
  · rw [hm]
    constructor
    · intro hmem
      obtain ⟨e', he'mem, hdet⟩ := List.mem_map.mp hmem
      obtain ⟨_, hp⟩ := List.mem_filter.mp he'mem
      rw [(classifier_details hdet).1] at hp
      exact (inMorningB_iff e).mp hp
    · intro hex
      exact List.mem_map.mpr
        ⟨e, List.mem_filter.mpr ⟨he, (inMorningB_iff e).mpr hex⟩, rfl⟩
  · rw [ha]
    constructor
    · intro hmem
      obtain ⟨e', he'mem, hdet⟩ := List.mem_map.mp hmem
      obtain ⟨_, hp⟩ := List.mem_filter.mp he'mem
      rw [(classifier_details hdet).2.1] at hp
      exact (inAfternoonB_iff e).mp hp
    · intro hex
      exact List.mem_map.mpr
        ⟨e, List.mem_filter.mpr ⟨he, (inAfternoonB_iff e).mpr hex⟩, rfl⟩

theorem bucket_placement_witness :
    ((⟨some "01/07/2025", some "8:30am", some "USD", some "High",
        some "Non-Farm Payrolls"⟩ : RawEvent) ∈
      processedEvents [⟨some "01/07/2025", some "8:30am", some "USD",
        some "High", some "Non-Farm Payrolls"⟩]) ∧
    ((event_details ⟨some "01/07/2025", some "8:30am", some "USD", some "High",
        some "Non-Farm Payrolls"⟩ ∈
        (analyze_day_events (0 : Nat)
          [⟨some "01/07/2025", some "8:30am", some "USD", some "High",
            some "Non-Farm Payrolls"⟩]).all_day ↔
      event_time ⟨some "01/07/2025", some "8:30am", some "USD", some "High",
        some "Non-Farm Payrolls"⟩ = none) ∧
    (event_details ⟨some "01/07/2025", some "8:30am", some "USD", some "High",
        some "Non-Farm Payrolls"⟩ ∈
        (analyze_day_events (0 : Nat)
          [⟨some "01/07/2025", some "8:30am", some "USD", some "High",
            some "Non-Farm Payrolls"⟩]).morning ↔
      ∃ t, event_time ⟨some "01/07/2025", some "8:30am", some "USD",
        some "High", some "Non-Farm Payrolls"⟩ = some t ∧
        t.toMin < MORNING_CUTOFF.toMin) ∧
    (event_details ⟨some "01/07/2025", some "8:30am", some "USD", some "High",
        some "Non-Farm Payrolls"⟩ ∈
        (analyze_day_events (0 : Nat)
          [⟨some "01/07/2025", some "8:30am", some "USD", some "High",
            some "Non-Farm Payrolls"⟩]).afternoon ↔
      ∃ t, event_time ⟨some "01/07/2025", some "8:30am", some "USD",
        some "High", some "Non-Farm Payrolls"⟩ = some t ∧
        MORNING_CUTOFF.toMin ≤ t.toMin)) :=
  ⟨by decide, bucket_placement_by_time 0 _ _ (by decide)⟩

/-- C8: a normalized event's impact label is one of `"High"`, `"Medium"`,
`"Low"`, `"High (Forced)"`, and it is `"High (Forced)"` exactly when a
forced-high keyword matches the name while the parsed impact of the record
is not `"High"`. -/
theorem display_impact_label_spec (e : RawEvent) :
    ((event_details e).impact = "High" ∨ (event_details e).impact = "Medium" ∨
      (event_details e).impact = "Low" ∨
      (event_details e).impact = "High (Forced)") ∧
    ((event_details e).impact = "High (Forced)" ↔
      is_forced_high e = true ∧ parsedImpact e ≠ "High") := by
  have himp : (event_details e).impact = display_impact e := rfl
  have hrange : parsedImpact e = "High" ∨ parsedImpact e = "Medium" ∨
      parsedImpact e = "Low" := parse_impact_range (some (e.impact.getD ""))
  rw [himp]
  unfold display_impact
  constructor
  · split_ifs with h1 h2
    · simp
    · simp
    · rcases hrange with h | h | h <;> simp [h]
  · split_ifs with h1 h2
    · exact iff_of_true rfl h1
    · exact iff_of_false (by decide) h1
    · refine iff_of_false ?_ h1
      rcases hrange with h | h | h <;> simp [h]

theorem display_impact_witness :
    ((event_details ⟨none, some "8:30am", some "USD", some "Medium",
        some "CPI y/y"⟩).impact = "High" ∨
      (event_details ⟨none, some "8:30am", some "USD", some "Medium",
        some "CPI y/y"⟩).impact = "Medium" ∨
      (event_details ⟨none, some "8:30am", some "USD", some "Medium",
        some "CPI y/y"⟩).impact = "Low" ∨
      (event_details ⟨none, some "8:30am", some "USD", some "Medium",
        some "CPI y/y"⟩).impact = "High (Forced)") ∧
    ((event_details ⟨none, some "8:30am", some "USD", some "Medium",
        some "CPI y/y"⟩).impact = "High (Forced)" ↔
      is_forced_high ⟨none, some "8:30am", some "USD", some "Medium",
        some "CPI y/y"⟩ = true ∧
      parsedImpact ⟨none, some "8:30am", some "USD", some "Medium",
        some "CPI y/y"⟩ ≠ "High") :=
  display_impact_label_spec ⟨none, some "8:30am", some "USD", some "Medium",
    some "CPI y/y"⟩

end TradingPlan
